import Mathlib

/-!
Verification of the observability / session core of `advanced_manager.py`
(AdvancedContainerManager).

The Python source is shallowly embedded: the pure counter-to-metric
derivations become Lean functions over explicit record types, the stateful
history store and terminal-session manager become explicit state passing,
and the background sampling loop becomes a schedule function over a cycle
outcome sequence.  Machine integers are modelled as `Int` (Python ints are
unbounded) and percentage arithmetic as `Rat`.
-/

namespace AdvancedManager

/-- Python's `round(x, 2)`: rounding a value to two decimal places.
The exact tie-breaking convention is irrelevant to every theorem below,
since the code and the specification round the same exact value. -/
def round2 (q : ℚ) : ℚ := (round (q * 100) : ℤ) / 100

/-- The raw docker stats snapshot consumed by
`MetricsCollector.collect_container_metrics` (lines 93-122):
`stats['cpu_stats']['cpu_usage']['total_usage']`,
`stats['precpu_stats']['cpu_usage']['total_usage']`,
`stats['cpu_stats']['system_cpu_usage']`, `stats['precpu_stats']['system_cpu_usage']`,
`stats['cpu_stats']['cpu_usage']['percpu_usage']`,
`stats['memory_stats']['usage']`, `stats['memory_stats']['limit']`,
`stats['networks']` as a list of per-interface `(rx_bytes, tx_bytes)`,
and the optional `stats['blkio_stats']` pair `(read_bytes, write_bytes)`
(`none` models the key being absent from the stats dict). -/
structure ContainerStats where
  total_usage : ℤ
  pre_total_usage : ℤ
  system_cpu_usage : ℤ
  pre_system_cpu_usage : ℤ
  percpu_usage : List ℤ
  memory_usage : ℤ
  memory_limit : ℤ
  networks : List (ℤ × ℤ)
  blkio : Option (ℤ × ℤ)
  deriving DecidableEq

/-- The dict returned by `collect_container_metrics` (lines 113-123).
`container_id` models the key added later by the background loop
(line 517); `collect_container_metrics` itself leaves it absent (`none`). -/
structure ContainerMetrics where
  timestamp : String
  cpu_percent : ℚ
  memory_percent : ℚ
  memory_usage : ℤ
  memory_limit : ℤ
  network_rx : ℤ
  network_tx : ℤ
  block_read : ℤ
  block_write : ℤ
  container_id : Option String := none
  deriving DecidableEq

/-- Lines 94-99: the CPU usage fraction before rounding.  `cpu_usage = 0.0`
unless `total_usage > 0`; then, if `system_delta > 0`,
`(cpu_delta / system_delta) * len(percpu_usage) * 100.0`. -/
def cpuUsageOf (s : ContainerStats) : ℚ :=
  if s.total_usage > 0 then
    let cpu_delta : ℤ := s.total_usage - s.pre_total_usage
    let system_delta : ℤ := s.system_cpu_usage - s.pre_system_cpu_usage
    if system_delta > 0 then
      ((cpu_delta : ℚ) / (system_delta : ℚ)) * (s.percpu_usage.length : ℚ) * 100
    else 0
  else 0

/-- Lines 101-104: `memory_usage = 0.0` unless
`stats['memory_stats']['limit'] > 0`, in which case `(usage / limit) * 100.0`. -/
def memUsageOf (s : ContainerStats) : ℚ :=
  if s.memory_limit > 0 then
    ((s.memory_usage : ℚ) / (s.memory_limit : ℚ)) * 100
  else 0

/-- The pure derivation inside `MetricsCollector.collect_container_metrics`
(lines 93-123), applied to a successfully fetched stats snapshot; `now`
stands for `datetime.now().isoformat()`. -/
def collect_container_metrics (now : String) (s : ContainerStats) : ContainerMetrics :=
  { timestamp := now
    cpu_percent := round2 (cpuUsageOf s)
    memory_percent := round2 (memUsageOf s)
    memory_usage := s.memory_usage
    memory_limit := s.memory_limit
    network_rx := (s.networks.map Prod.fst).sum
    network_tx := (s.networks.map Prod.snd).sum
    block_read := match s.blkio with | some p => p.1 | none => 0
    block_write := match s.blkio with | some p => p.2 | none => 0 }

theorem round2_zero : round2 0 = 0 := by
  simp [round2]

/-- C1: when the current container CPU total is positive and the system CPU
delta is positive, `collect_container_metrics` reports
`cpu_percent = round2 ((cpu_usage_delta / system_cpu_delta) * num_cores * 100)`
with `cpu_usage_delta` the difference of the container totals and
`num_cores = len(percpu_usage)`; when the system delta is nonpositive or
the current total is not positive, `cpu_percent = 0`. -/
theorem cpu_percent_formula (now : String) (s : ContainerStats) :
    (s.total_usage > 0 → s.system_cpu_usage - s.pre_system_cpu_usage > 0 →
      (collect_container_metrics now s).cpu_percent =
        round2 ((((s.total_usage - s.pre_total_usage : ℤ) : ℚ) /
                 ((s.system_cpu_usage - s.pre_system_cpu_usage : ℤ) : ℚ)) *
                (s.percpu_usage.length : ℚ) * 100)) ∧
    (s.system_cpu_usage - s.pre_system_cpu_usage ≤ 0 ∨ ¬ s.total_usage > 0 →
      (collect_container_metrics now s).cpu_percent = 0) := by
  constructor
  · intro h1 h2
    simp only [collect_container_metrics, cpuUsageOf, if_pos h1, if_pos h2]
  · intro h
    rcases h with h | h
    · by_cases h1 : s.total_usage > 0
      · have h2 : ¬ s.system_cpu_usage - s.pre_system_cpu_usage > 0 := not_lt.mpr h
        simp only [collect_container_metrics, cpuUsageOf, if_pos h1, if_neg h2]
        exact round2_zero
      · simp only [collect_container_metrics, cpuUsageOf, if_neg h1]
        exact round2_zero
    · simp only [collect_container_metrics, cpuUsageOf, if_neg h]
      exact round2_zero

/-- Example snapshot from the spec's end-to-end scenario: container CPU total
1000 → 1400, system total 10000 → 11000, 4 cores, memory 256 MiB of 512 MiB. -/
def statsEx : ContainerStats :=
  { total_usage := 1400
    pre_total_usage := 1000
    system_cpu_usage := 11000
    pre_system_cpu_usage := 10000
    percpu_usage := [0, 0, 0, 0]
    memory_usage := 268435456
    memory_limit := 536870912
    networks := [(10, 20), (30, 40)]
    blkio := some (5, 6) }

theorem cpu_percent_formula_witness :
    (collect_container_metrics "t" statsEx).cpu_percent =
      round2 ((((statsEx.total_usage - statsEx.pre_total_usage : ℤ) : ℚ) /
               ((statsEx.system_cpu_usage - statsEx.pre_system_cpu_usage : ℤ) : ℚ)) *
              (statsEx.percpu_usage.length : ℚ) * 100) :=
  (cpu_percent_formula "t" statsEx).1 (by decide) (by decide)

/-- C3: `memory_percent = round2 ((usage / limit) * 100)` when the memory
limit is positive, and `memory_percent = 0` when the limit is nonpositive. -/
theorem memory_percent_formula (now : String) (s : ContainerStats) :
    (s.memory_limit > 0 →
      (collect_container_metrics now s).memory_percent =
        round2 (((s.memory_usage : ℚ) / (s.memory_limit : ℚ)) * 100)) ∧
    (s.memory_limit ≤ 0 →
      (collect_container_metrics now s).memory_percent = 0) := by
  constructor
  · intro h
    simp only [collect_container_metrics, memUsageOf, if_pos h]
  · intro h
    have h' : ¬ s.memory_limit > 0 := not_lt.mpr h
    simp only [collect_container_metrics, memUsageOf, if_neg h']
    exact round2_zero

theorem memory_percent_formula_witness :
    (collect_container_metrics "t" statsEx).memory_percent =
      round2 (((statsEx.memory_usage : ℚ) / (statsEx.memory_limit : ℚ)) * 100) :=
  (memory_percent_formula "t" statsEx).1 (by decide)

/-- `MetricsCollector.max_history` (line 66). -/
def max_history : ℕ := 100

/-- One element of the in-memory `metrics_history` list: the wrapper dict
built at lines 135-139, whose keys are exactly `type`, `data`, `timestamp`. -/
structure MemEntry (α : Type) where
  type : String
  data : α
  timestamp : String
  deriving DecidableEq

/-- A value stored under a key of the wrapper dict. -/
inductive EntryVal (α : Type) where
  | str (s : String)
  | obj (d : α)
  deriving DecidableEq

/-- Python `m.get(k)` on the wrapper dict: only the keys `type`, `data`
and `timestamp` are present; any other key yields `None`. -/
def MemEntry.get {α : Type} (m : MemEntry α) (k : String) : Option (EntryVal α) :=
  if k = "type" then some (.str m.type)
  else if k = "data" then some (.obj m.data)
  else if k = "timestamp" then some (.str m.timestamp)
  else none

/-- The mutable state touched by `MetricsCollector.store_metrics`:
the `REDIS_AVAILABLE` flag, the redis ordered lists (newest first, as
produced by `lpush`), and the in-process `metrics_history` list (oldest
first, as produced by `append`).  `α` is the type of a stored record. -/
structure MetricsState (α : Type) where
  redis_available : Bool
  redis : String → List α
  memory : List (MemEntry α)

/-- A fresh collector state: no redis list holds anything and
`metrics_history = []` (line 65). -/
def initState (α : Type) (ra : Bool) : MetricsState α :=
  { redis_available := ra, redis := fun _ => [], memory := [] }

/-- `MetricsCollector.store_metrics` (lines 128-141).  Redis branch:
`lpush(key, data)` then `ltrim(key, 0, max_history - 1)`, i.e. prepend and
keep the first `max_history` elements.  Memory branch: append the wrapper
dict, then `pop(0)` once when the length exceeds `max_history`. -/
def store_metrics {α : Type} (st : MetricsState α) (metrics_type : String)
    (data : α) (now : String) : MetricsState α :=
  if st.redis_available then
    { st with redis := fun k =>
        if k = "metrics:" ++ metrics_type then
          ((data :: st.redis ("metrics:" ++ metrics_type)).take max_history)
        else st.redis k }
  else
    { st with memory :=
        if (st.memory ++ [MemEntry.mk metrics_type data now]).length > max_history then
          (st.memory ++ [MemEntry.mk metrics_type data now]).drop 1
        else st.memory ++ [MemEntry.mk metrics_type data now] }

/-- A sequence of `store_metrics` calls, each `(metrics_type, data, now)`. -/
def apply_stores {α : Type} (st : MetricsState α)
    (ops : List (String × α × String)) : MetricsState α :=
  ops.foldl (fun s op => store_metrics s op.1 op.2.1 op.2.2) st

/-- Redis branch of `get_container_stats_history` (lines 486-492):
`lrange(f"metrics:container:{container_id}", 0, -1)` returns the whole
stored list, newest first. -/
def get_history_redis {α : Type} (st : MetricsState α) (container_id : String) : List α :=
  st.redis ("metrics:container:" ++ container_id)

/-- Memory branch of `get_container_stats_history` (lines 493-496):
`[m for m in metrics_history if m.get('container_id') == container_id]`. -/
def get_history_memory {α : Type} [DecidableEq α] (st : MetricsState α)
    (container_id : String) : List (MemEntry α) :=
  st.memory.filter (fun m => decide (m.get "container_id" = some (.str container_id)))

theorem store_metrics_redis_available {α : Type} (st : MetricsState α)
    (t : String) (d : α) (now : String) :
    (store_metrics st t d now).redis_available = st.redis_available := by
  unfold store_metrics
  split <;> rfl

theorem store_metrics_redis_le {α : Type} (st : MetricsState α)
    (t : String) (d : α) (now : String)
    (h : ∀ k, (st.redis k).length ≤ max_history) :
    ∀ k, ((store_metrics st t d now).redis k).length ≤ max_history := by
  intro k
  unfold store_metrics
  split
  · dsimp only
    split
    · exact List.length_take_le _ _
    · exact h k
  · exact h k

theorem store_metrics_memory_le {α : Type} (st : MetricsState α)
    (t : String) (d : α) (now : String)
    (h : st.memory.length ≤ max_history) :
    (store_metrics st t d now).memory.length ≤ max_history := by
  unfold store_metrics
  split
  · exact h
  · dsimp only
    split
    · next hgt =>
      simp only [List.length_drop, List.length_append, List.length_cons,
        List.length_nil] at hgt ⊢
      omega
    · next hle =>
      simp only [List.length_append, List.length_cons, List.length_nil] at hle ⊢
      omega

theorem apply_stores_redis_le {α : Type} (ops : List (String × α × String)) :
    ∀ st : MetricsState α, (∀ k, (st.redis k).length ≤ max_history) →
      ∀ k, ((apply_stores st ops).redis k).length ≤ max_history := by
  induction ops with
  | nil => intro st h k; exact h k
  | cons op rest ih =>
    intro st h k
    exact ih (store_metrics st op.1 op.2.1 op.2.2)
      (store_metrics_redis_le st op.1 op.2.1 op.2.2 h) k

theorem apply_stores_memory_le {α : Type} (ops : List (String × α × String)) :
    ∀ st : MetricsState α, st.memory.length ≤ max_history →
      (apply_stores st ops).memory.length ≤ max_history := by
  induction ops with
  | nil => intro st h; exact h
  | cons op rest ih =>
    intro st h
    exact ih (store_metrics st op.1 op.2.1 op.2.2)
      (store_metrics_memory_le st op.1 op.2.1 op.2.2 h)

theorem take_append_take {α : Type} (n : ℕ) (A B : List α) :
    (A ++ B.take n).take n = (A ++ B).take n := by
  rw [List.take_append_eq_append_take, List.take_append_eq_append_take,
    List.take_take, Nat.min_eq_left (Nat.sub_le n A.length)]

theorem apply_stores_redis_closed {α : Type} (t : String) (ds : List (α × String)) :
    ∀ st : MetricsState α, st.redis_available = true →
      (st.redis ("metrics:" ++ t)).length ≤ max_history →
      (apply_stores st (ds.map (fun p => (t, p.1, p.2)))).redis ("metrics:" ++ t)
        = ((ds.map Prod.fst).reverse ++ st.redis ("metrics:" ++ t)).take max_history := by
  induction ds with
  | nil =>
    intro st _ hlen
    simp only [List.map_nil, apply_stores, List.foldl_nil, List.reverse_nil,
      List.nil_append]
    exact (List.take_of_length_le hlen).symm
  | cons p rest ih =>
    intro st hra hlen
    have hstep : (store_metrics st t p.1 p.2).redis ("metrics:" ++ t)
        = ((p.1 :: st.redis ("metrics:" ++ t)).take max_history) := by
      unfold store_metrics
      rw [if_pos hra]
      simp
    have hra' : (store_metrics st t p.1 p.2).redis_available = true := by
      rw [store_metrics_redis_available]; exact hra
    have hlen' : ((store_metrics st t p.1 p.2).redis ("metrics:" ++ t)).length
        ≤ max_history := by
      rw [hstep]; exact List.length_take_le _ _
    have := ih (store_metrics st t p.1 p.2) hra' hlen'
    simp only [List.map_cons, apply_stores, List.foldl_cons] at this ⊢
    rw [this, hstep, take_append_take, List.reverse_cons, List.append_assoc,
      List.singleton_append]

theorem apply_stores_memory_closed {α : Type} (ops : List (String × α × String)) :
    ∀ st : MetricsState α, st.redis_available = false →
      st.memory.length ≤ max_history →
      (apply_stores st ops).memory
        = (st.memory ++ ops.map (fun op => MemEntry.mk op.1 op.2.1 op.2.2)).drop
            (st.memory.length + ops.length - max_history) := by
  induction ops with
  | nil =>
    intro st _ hlen
    simp only [apply_stores, List.foldl_nil, List.map_nil, List.append_nil,
      List.length_nil, Nat.add_zero]
    rw [Nat.sub_eq_zero_of_le hlen, List.drop_zero]
  | cons op rest ih =>
    intro st hra hlen
    have hra' : (store_metrics st op.1 op.2.1 op.2.2).redis_available = false := by
      rw [store_metrics_redis_available]; exact hra
    have hmem : (store_metrics st op.1 op.2.1 op.2.2).memory
        = (if (st.memory ++ [MemEntry.mk op.1 op.2.1 op.2.2]).length > max_history then
            (st.memory ++ [MemEntry.mk op.1 op.2.1 op.2.2]).drop 1
          else st.memory ++ [MemEntry.mk op.1 op.2.1 op.2.2]) := by
      unfold store_metrics
      rw [if_neg (by rw [hra]; exact Bool.false_ne_true)]
    have hlen' : (store_metrics st op.1 op.2.1 op.2.2).memory.length ≤ max_history :=
      store_metrics_memory_le st op.1 op.2.1 op.2.2 hlen
    have hih := ih (store_metrics st op.1 op.2.1 op.2.2) hra' hlen'
    simp only [apply_stores, List.foldl_cons, List.map_cons] at hih ⊢
    rw [hih]
    by_cases hfull : st.memory.length + 1 > max_history
    · have hmem' : (store_metrics st op.1 op.2.1 op.2.2).memory
          = (st.memory ++ [MemEntry.mk op.1 op.2.1 op.2.2]).drop 1 := by
        rw [hmem, if_pos (by
          simp only [List.length_append, List.length_cons, List.length_nil]
          omega)]
      have hlendrop : ((st.memory ++ [MemEntry.mk op.1 op.2.1 op.2.2]).drop 1).length
          = max_history := by
        simp only [List.length_drop, List.length_append, List.length_cons,
          List.length_nil]
        omega
      rw [hmem', hlendrop]
      have hd : ((st.memory ++ [MemEntry.mk op.1 op.2.1 op.2.2]) ++
              rest.map (fun op => MemEntry.mk op.1 op.2.1 op.2.2)).drop 1
          = (st.memory ++ [MemEntry.mk op.1 op.2.1 op.2.2]).drop 1 ++
            rest.map (fun op => MemEntry.mk op.1 op.2.1 op.2.2) := by
        have hz : 1 - (st.memory ++ [MemEntry.mk op.1 op.2.1 op.2.2]).length = 0 := by
          simp only [List.length_append, List.length_cons, List.length_nil]
          omega
        rw [List.drop_append_eq_append_drop, hz, List.drop_zero]
      rw [← hd, List.drop_drop, List.append_assoc, List.singleton_append]
      congr 1
      simp only [List.length_cons]
      omega
    · have hmem' : (store_metrics st op.1 op.2.1 op.2.2).memory
          = st.memory ++ [MemEntry.mk op.1 op.2.1 op.2.2] := by
        rw [hmem, if_neg (by
          simp only [List.length_append, List.length_cons, List.length_nil]
          omega)]
      rw [hmem']
      simp only [List.length_append, List.length_cons, List.length_nil,
        List.append_assoc, List.singleton_append]
      congr 1
      omega

/-- C2: each history stream holds at most 100 records under either backend;
appending 101 records for one stream to a fresh collector leaves exactly the
last 100 inserted, the oldest evicted first (redis keeps them newest first,
the in-process list oldest first). -/
theorem history_store_cap {α : Type} (ops : List (String × α × String)) (k t : String) :
    ((apply_stores (initState α true) ops).redis k).length ≤ max_history ∧
    ((apply_stores (initState α false) ops).memory.filter
        (fun m => decide (m.type = t))).length ≤ max_history ∧
    (∀ ds : List (α × String), ds.length = 101 →
      (apply_stores (initState α true) (ds.map (fun p => (t, p.1, p.2)))).redis
          ("metrics:" ++ t)
        = ((ds.map Prod.fst).drop 1).reverse ∧
      (apply_stores (initState α false) (ds.map (fun p => (t, p.1, p.2)))).memory
        = (ds.map (fun p => MemEntry.mk t p.1 p.2)).drop 1) := by
  refine ⟨?_, ?_, ?_⟩
  · exact apply_stores_redis_le ops (initState α true) (fun _ => Nat.zero_le _) k
  · calc ((apply_stores (initState α false) ops).memory.filter
          (fun m => decide (m.type = t))).length
        ≤ (apply_stores (initState α false) ops).memory.length :=
          List.length_filter_le _ _
      _ ≤ max_history := apply_stores_memory_le ops (initState α false) (Nat.zero_le _)
  · intro ds hlen
    constructor
    · rw [apply_stores_redis_closed t ds (initState α true) rfl (Nat.zero_le _)]
      cases ds with
      | nil => simp at hlen
      | cons p rest =>
        have hr : rest.length = 100 := by
          simp only [List.length_cons] at hlen
          omega
        have hA : ((rest.map Prod.fst).reverse).length = max_history := by
          simp [hr, max_history]
        simp only [List.map_cons, List.reverse_cons]
        show (((rest.map Prod.fst).reverse ++ [p.1]) ++
            (initState α true).redis ("metrics:" ++ t)).take max_history = _
        have hinit : (initState α true).redis ("metrics:" ++ t) = [] := rfl
        rw [hinit, List.append_nil, List.take_append_eq_append_take,
          List.take_of_length_le (le_of_eq hA), hA, Nat.sub_self, List.take_zero,
          List.append_nil]
        simp
    · rw [apply_stores_memory_closed (ds.map (fun p => (t, p.1, p.2)))
        (initState α false) rfl (Nat.zero_le _)]
      have hinit : (initState α false).memory = [] := rfl
      rw [hinit, List.nil_append, List.map_map]
      simp only [List.length_nil, List.length_map, hlen, Nat.zero_add,
        Function.comp]
      norm_num [max_history]
      rfl

/-- Concrete batch of 101 records for the witness below. -/
def ds101 : List (ℕ × String) := (List.range 101).map (fun i => (i, "ts"))

theorem history_store_cap_witness :
    ((apply_stores (initState ℕ true) [("a", 0, "ts")]).redis "x").length ≤ max_history ∧
    ((apply_stores (initState ℕ false) [("a", 0, "ts")]).memory.filter
        (fun m => decide (m.type = "c"))).length ≤ max_history ∧
    ((apply_stores (initState ℕ true) (ds101.map (fun p => ("c", p.1, p.2)))).redis
        ("metrics:" ++ "c") = ((ds101.map Prod.fst).drop 1).reverse ∧
     (apply_stores (initState ℕ false) (ds101.map (fun p => ("c", p.1, p.2)))).memory
        = (ds101.map (fun p => MemEntry.mk "c" p.1 p.2)).drop 1) :=
  ⟨(history_store_cap [("a", 0, "ts")] "x" "c").1,
   (history_store_cap [("a", 0, "ts")] "x" "c").2.1,
   (history_store_cap [("a", 0, "ts")] "x" "c").2.2 ds101 (by simp [ds101])⟩

/-- C4 (code bug): the two read paths of `get_container_stats_history` are
not observationally equivalent.  The in-memory branch filters on
`m.get('container_id')`, but `store_metrics` wraps records as
`{'type', 'data', 'timestamp'}`, so the filter never matches and the
in-memory read always returns the empty list, while the redis branch
returns the stored records. -/
theorem history_backends_diverge :
    (∀ (α : Type) [DecidableEq α] (st : MetricsState α) (cid : String),
        get_history_memory st cid = []) ∧
    get_history_redis (store_metrics (initState ℕ true) "container:abc" 7 "ts") "abc"
      = [7] ∧
    get_history_memory (store_metrics (initState ℕ false) "container:abc" 7 "ts") "abc"
      = [] := by
  refine ⟨?_, by decide, by decide⟩
  intro α _ st cid
  have hget : ∀ m : MemEntry α, m.get "container_id" = none := by
    intro m
    unfold MemEntry.get
    rw [if_neg (by decide), if_neg (by decide), if_neg (by decide)]
  unfold get_history_memory
  rw [List.filter_eq_nil_iff]
  intro m _
  simp [hget m]

/-- The guarded store in `collect_metrics_background` (lines 508-518):
`metrics = collect(...); if metrics: store_metrics(key, metrics)`.
`none` models the empty dict returned when collection failed. -/
def cycle_store_step {α : Type} (st : MetricsState α) (key : String)
    (collected : Option α) (now : String) : MetricsState α :=
  match collected with
  | none => st
  | some m => store_metrics st key m now

/-- `MetricsCollector.collect_container_metrics` as actually invoked
(lines 84-126): returns the empty dict (`none`) when `DOCKER_AVAILABLE`
is false or when fetching the stats snapshot raised; otherwise the pure
derivation applied to the snapshot. -/
def collect_container_metrics_run (docker_available : Bool) (now : String)
    (fetched : Option ContainerStats) : Option ContainerMetrics :=
  if docker_available then fetched.map (collect_container_metrics now) else none

/-- C10: a failed collection (empty record) appends nothing: the history
state is unchanged, because `store_metrics` is invoked only on a non-empty
collected record; and the collector returns the empty record whenever
docker is unavailable or the stats fetch raised. -/
theorem failed_sample_leaves_history (α : Type) (st : MetricsState α)
    (key now : String) (collected : Option α) :
    (collected = none → cycle_store_step st key collected now = st) ∧
    (∀ m, collected = some m →
      cycle_store_step st key collected now = store_metrics st key m now) ∧
    (∀ (avail : Bool) (nowv : String) (fetched : Option ContainerStats),
      avail = false ∨ fetched = none →
      collect_container_metrics_run avail nowv fetched = none) := by
  refine ⟨?_, ?_, ?_⟩
  · intro h; rw [h]; rfl
  · intro m h; rw [h]; rfl
  · intro avail nowv fetched h
    rcases h with h | h
    · rw [h]; rfl
    · rw [h]
      cases avail <;> rfl

theorem failed_sample_leaves_history_witness :
    cycle_store_step (initState ℕ false) "system" none "ts" = initState ℕ false ∧
    cycle_store_step (initState ℕ false) "system" (some 5) "ts"
      = store_metrics (initState ℕ false) "system" 5 "ts" ∧
    collect_container_metrics_run true "ts" none = none :=
  ⟨(failed_sample_leaves_history ℕ (initState ℕ false) "system" "ts" none).1 rfl,
   (failed_sample_leaves_history ℕ (initState ℕ false) "system" "ts" (some 5)).2.1 5 rfl,
   (failed_sample_leaves_history ℕ (initState ℕ false) "system" "ts" none).2.2
     true "ts" none (Or.inr rfl)⟩

/-- A container as reported by the runtime client (`container.status`). -/
structure ContainerInfo where
  status : String
  deriving DecidableEq

/-- The docker runtime as seen by `TerminalManager`: the `DOCKER_AVAILABLE`
flag, `containers.get` (`none` models a raised NotFound), `exec_create`
(`none` models a raised API error), and the `exec_start` + socket-send tail
of `send_command` collapsed to a success flag per exec id (`false` models
any exception inside that try block). -/
structure Runtime where
  docker_available : Bool
  containers : String → Option ContainerInfo
  exec_create : String → Option String
  exec_start_send : String → Bool

/-- One value of the `active_sessions` dict (lines 170-174): keys
`container_id`, `exec_id`, `socket` (initially `None`). -/
structure SessionRec where
  container_id : String
  exec_id : String
  socket : Option Unit
  deriving DecidableEq

/-- The `TerminalManager` state: its `active_sessions` dict (line 147),
as a lookup function. -/
@[ext]
structure TerminalState where
  active_sessions : String → Option SessionRec

/-- A fresh `TerminalManager`: `active_sessions = {}`. -/
def initSessions : TerminalState := ⟨fun _ => none⟩

/-- Decimal rendering of a natural number, modelling the Python f-string
formatting of `int(time.time())` (line 169). -/
def natDecimal (n : ℕ) : List Char :=
  if n = 0 then ['0']
  else (Nat.digits 10 n).reverse.map (fun d => Char.ofNat (48 + d))

/-- Line 169: `session_id = f"{container_id}_{int(time.time())}"`. -/
def session_id (container_id : String) (t : ℕ) : String :=
  container_id ++ "_" ++ String.mk (natDecimal t)

/-- `TerminalManager.create_session` (lines 149-179), with `t` standing for
`int(time.time())`.  Returns the optional session id and the updated
`active_sessions`; any runtime exception is caught and yields `None` with
the state unchanged. -/
def create_session (rt : Runtime) (t : ℕ) (container_id : String)
    (st : TerminalState) : Option String × TerminalState :=
  if rt.docker_available then
    match rt.containers container_id with
    | none => (none, st)
    | some c =>
      if c.status ≠ "running" then (none, st)
      else
        match rt.exec_create container_id with
        | none => (none, st)
        | some exec_id =>
          (some (session_id container_id t),
           ⟨fun k => if k = session_id container_id t then
               some ⟨container_id, exec_id, none⟩
             else st.active_sessions k⟩)
  else (none, st)

/-- `TerminalManager.send_command` (lines 181-203): `False` when the
session id is not registered; otherwise look the container up, start the
exec stream and send the bytes, catching any exception as `False`. -/
def send_command (rt : Runtime) (sid _command : String) (st : TerminalState) : Bool :=
  match st.active_sessions sid with
  | none => false
  | some session =>
    match rt.containers session.container_id with
    | none => false
    | some _ => rt.exec_start_send session.exec_id

/-- Modelled from the spec: the source's `TerminalManager` (lines 143-203)
has no close-session operation, so `closeSession` of spec section 4.5 is
missing code.  Per the spec it marks the session Closed and releases its
exec handle, after which the session is no longer Active; with
`send_command`'s membership test on `active_sessions` (line 183) this is
deregistration of the id, and closing an unknown id is a no-op. -/
def close_session (sid : String) (st : TerminalState) : TerminalState :=
  ⟨fun k => if k = sid then none else st.active_sessions k⟩

theorem digitChar_inj_lt :
    ∀ d1 < 10, ∀ d2 < 10, Char.ofNat (48 + d1) = Char.ofNat (48 + d2) → d1 = d2 := by
  decide

theorem map_digitChar_inj :
    ∀ l1 l2 : List ℕ, (∀ d ∈ l1, d < 10) → (∀ d ∈ l2, d < 10) →
      l1.map (fun d => Char.ofNat (48 + d)) = l2.map (fun d => Char.ofNat (48 + d)) →
      l1 = l2 := by
  intro l1
  induction l1 with
  | nil =>
    intro l2 _ _ h
    cases l2 with
    | nil => rfl
    | cons b bs => simp at h
  | cons a as ih =>
    intro l2 h1 h2 h
    cases l2 with
    | nil => simp at h
    | cons b bs =>
      simp only [List.map_cons, List.cons.injEq] at h
      have ha : a < 10 := h1 a (List.mem_cons_self a as)
      have hb : b < 10 := h2 b (List.mem_cons_self b bs)
      have hab : a = b := digitChar_inj_lt a ha b hb h.1
      have htl : as = bs :=
        ih bs (fun d hd => h1 d (List.mem_cons_of_mem a hd))
          (fun d hd => h2 d (List.mem_cons_of_mem b hd)) h.2
      rw [hab, htl]

theorem natDecimal_inj : ∀ t1 t2 : ℕ, natDecimal t1 = natDecimal t2 → t1 = t2 := by
  have hone : ∀ t : ℕ, t ≠ 0 → natDecimal t = ['0'] → False := by
    intro t ht h
    unfold natDecimal at h
    rw [if_neg ht] at h
    have hlen : (Nat.digits 10 t).length = 1 := by
      have := congrArg List.length h
      simpa using this
    obtain ⟨d, hd⟩ := List.length_eq_one.mp hlen
    rw [hd] at h
    simp only [List.reverse_cons, List.reverse_nil, List.nil_append,
      List.map_cons, List.map_nil, List.cons.injEq] at h
    have hdlt : d < 10 := Nat.digits_lt_base (by norm_num)
      (by rw [hd]; exact List.mem_cons_self d [])
    have hd0 : d = 0 := by
      have h0 : Char.ofNat (48 + d) = Char.ofNat (48 + 0) := by
        rw [Nat.add_zero]
        exact h.1
      exact digitChar_inj_lt d hdlt 0 (by norm_num) h0
    have hzero : t = 0 := by
      have hod := Nat.ofDigits_digits 10 t
      rw [hd, hd0] at hod
      simpa using hod.symm
    exact ht hzero
  intro t1 t2 h
  by_cases h1 : t1 = 0
  · by_cases h2 : t2 = 0
    · rw [h1, h2]
    · exfalso
      apply hone t2 h2
      rw [← h, h1]
      rfl
  · by_cases h2 : t2 = 0
    · exfalso
      apply hone t1 h1
      rw [h, h2]
      rfl
    · unfold natDecimal at h
      rw [if_neg h1, if_neg h2] at h
      have hrev : (Nat.digits 10 t1).reverse = (Nat.digits 10 t2).reverse :=
        map_digitChar_inj _ _
          (fun d hd => Nat.digits_lt_base (by norm_num) (List.mem_reverse.mp hd))
          (fun d hd => Nat.digits_lt_base (by norm_num) (List.mem_reverse.mp hd)) h
      have hdig : Nat.digits 10 t1 = Nat.digits 10 t2 :=
        List.reverse_injective hrev
      exact Nat.digits_inj_iff.mp hdig

theorem session_id_inj (cid : String) (t1 t2 : ℕ) :
    session_id cid t1 = session_id cid t2 → t1 = t2 := by
  intro h
  unfold session_id at h
  have hdata := congrArg String.data h
  simp only [String.data_append] at hdata
  have : natDecimal t1 = natDecimal t2 := by
    exact List.append_cancel_left hdata
  exact natDecimal_inj t1 t2 this

/-- A runtime whose containers all report "running", with reliable exec. -/
def rtRun : Runtime :=
  { docker_available := true
    containers := fun _ => some ⟨"running"⟩
    exec_create := fun _ => some "e"
    exec_start_send := fun _ => true }

/-- A runtime whose containers all report "stopped". -/
def rtStopped : Runtime :=
  { docker_available := true
    containers := fun _ => some ⟨"stopped"⟩
    exec_create := fun _ => some "e"
    exec_start_send := fun _ => true }

/-- C5: creating a session against a container whose reported status is not
"running" (e.g. "stopped") returns `None` rather than a session id, and
registers nothing: `active_sessions` is unchanged. -/
theorem create_session_not_running (rt : Runtime) (t : ℕ) (cid : String)
    (st : TerminalState) (c : ContainerInfo)
    (hc : rt.containers cid = some c) (hs : c.status ≠ "running") :
    (create_session rt t cid st).1 = none ∧ (create_session rt t cid st).2 = st := by
  cases hda : rt.docker_available with
  | false => simp [create_session, hda]
  | true => simp [create_session, hda, hc, hs]

theorem create_session_not_running_witness :
    (create_session rtStopped 3 "c" initSessions).1 = none ∧
    (create_session rtStopped 3 "c" initSessions).2 = initSessions :=
  create_session_not_running rtStopped 3 "c" initSessions ⟨"stopped"⟩ rfl (by decide)

/-- C6: `send_command` returns `False` for an unknown session id and for a
closed session id, and returns `True` on the first command of a session id
freshly returned by a successful `create_session` (the runtime neither
losing the container nor raising on exec start). -/
theorem send_command_contract (rt : Runtime) (t : ℕ) (cid sid command : String)
    (st : TerminalState) (c : ContainerInfo) (eid : String) :
    (st.active_sessions sid = none → send_command rt sid command st = false) ∧
    send_command rt sid command (close_session sid st) = false ∧
    (rt.docker_available = true → rt.containers cid = some c →
     c.status = "running" → rt.exec_create cid = some eid →
     rt.exec_start_send eid = true →
      (create_session rt t cid st).1 = some (session_id cid t) ∧
      send_command rt (session_id cid t) command (create_session rt t cid st).2
        = true) := by
  refine ⟨?_, ?_, ?_⟩
  · intro h
    unfold send_command
    rw [h]
  · simp [send_command, close_session]
  · intro hda hc hs hec hes
    have hns : ¬ c.status ≠ "running" := fun hne => hne hs
    have hcreate : create_session rt t cid st =
        (some (session_id cid t),
         ⟨fun k => if k = session_id cid t then some ⟨cid, eid, none⟩
           else st.active_sessions k⟩) := by
      unfold create_session
      rw [hda]
      simp only [if_true]
      rw [hc]
      simp only [if_neg hns]
      rw [hec]
    constructor
    · rw [hcreate]
    · rw [hcreate]
      simp [send_command, hc, hes]

theorem send_command_contract_witness :
    send_command rtRun "z" "ls" initSessions = false ∧
    send_command rtRun "z" "ls" (close_session "z" initSessions) = false ∧
    ((create_session rtRun 7 "c" initSessions).1 = some (session_id "c" 7) ∧
     send_command rtRun (session_id "c" 7) "ls"
       (create_session rtRun 7 "c" initSessions).2 = true) :=
  ⟨(send_command_contract rtRun 7 "c" "z" "ls" initSessions ⟨"running"⟩ "e").1 rfl,
   (send_command_contract rtRun 7 "c" "z" "ls" initSessions ⟨"running"⟩ "e").2.1,
   (send_command_contract rtRun 7 "c" "z" "ls" initSessions ⟨"running"⟩ "e").2.2
     rfl rfl rfl rfl rfl⟩

/-- C7 counterexample: two `create_session` calls for the same container in
the same epoch second both succeed while the first session is still live,
and both return the SAME identifier — identifiers are not distinct across
concurrently live sessions. -/
theorem session_id_collision :
    (create_session rtRun 5 "c" initSessions).1 = some (session_id "c" 5) ∧
    (create_session rtRun 5 "c"
        (create_session rtRun 5 "c" initSessions).2).1 = some (session_id "c" 5) := by
  constructor <;> rfl

/-- C7 amended: session identifiers for one container coincide exactly when
the creation seconds coincide — `session_id cid t1 = session_id cid t2 ↔
t1 = t2` — and every successful `create_session` returns precisely
`session_id cid t`, so two creates for the same container within one
second share one identifier (and distinct seconds give distinct ids). -/
theorem session_id_unique_iff (cid : String) (t1 t2 : ℕ) (rt : Runtime) (t : ℕ)
    (st : TerminalState) :
    (session_id cid t1 = session_id cid t2 ↔ t1 = t2) ∧
    (∀ sid, (create_session rt t cid st).1 = some sid → sid = session_id cid t) := by
  constructor
  · constructor
    · exact session_id_inj cid t1 t2
    · intro h; rw [h]
  · intro sid h
    unfold create_session at h
    split at h
    · split at h
      · simp at h
      · split at h
        · simp at h
        · split at h
          · simp at h
          · simp only [Option.some.injEq] at h
            exact h.symm
    · simp at h

theorem session_id_unique_iff_witness :
    (session_id "c" 1 = session_id "c" 2 ↔ (1 : ℕ) = 2) ∧
    session_id "c" 5 = session_id "c" 5 :=
  ⟨(session_id_unique_iff "c" 1 2 rtRun 5 initSessions).1,
   (session_id_unique_iff "c" 1 2 rtRun 5 initSessions).2 (session_id "c" 5) rfl⟩

/-- C8 (close operation modelled from the spec, section 4.5): closing is
idempotent — closing twice equals closing once, closing an unknown (or
already closed) session id is a no-op, and a closed session is no longer
Active. -/
theorem close_session_idempotent (sid : String) (st : TerminalState) :
    close_session sid (close_session sid st) = close_session sid st ∧
    (st.active_sessions sid = none → close_session sid st = st) ∧
    (close_session sid st).active_sessions sid = none := by
  refine ⟨?_, ?_, ?_⟩
  · apply TerminalState.ext
    funext k
    simp only [close_session]
    by_cases hk : k = sid
    · simp only [if_pos hk]
    · simp only [if_neg hk]
  · intro h
    apply TerminalState.ext
    funext k
    simp only [close_session]
    by_cases hk : k = sid
    · rw [if_pos hk, hk, h]
    · rw [if_neg hk]
  · simp [close_session]

theorem close_session_idempotent_witness :
    close_session "z" (close_session "z" initSessions) = close_session "z" initSessions ∧
    close_session "z" initSessions = initSessions ∧
    (close_session "z" initSessions).active_sessions "z" = none :=
  ⟨(close_session_idempotent "z" initSessions).1,
   (close_session_idempotent "z" initSessions).2.1 rfl,
   (close_session_idempotent "z" initSessions).2.2⟩

/-- The inter-cycle delay of `collect_metrics_background` (lines 503-523):
`time.sleep(5)` when the cycle body completed, `time.sleep(10)` in the
`except` handler when the cycle raised. -/
def cycle_delay (raised : Bool) : ℕ := if raised then 10 else 5

/-- The start offset of the n-th sampling attempt of the `while True` loop,
given which cycles raise (`f n = true` means cycle `n` escaped the
per-sample containment).  Total on every failure pattern: the loop always
schedules a next attempt and never terminates. -/
def loop_schedule (f : ℕ → Bool) : ℕ → ℕ
  | 0 => 0
  | n + 1 => loop_schedule f n + cycle_delay (f n)

/-- C9: for every failure pattern the loop schedules attempt `n + 1` after
attempt `n`, separated by exactly the 10-second backoff when cycle `n`
raised and the 5-second interval when it did not; after a failing cycle
followed by a successful one the backoff is applied exactly once. -/
theorem background_loop_backoff (f : ℕ → Bool) (n : ℕ) :
    loop_schedule f (n + 1) = loop_schedule f n + cycle_delay (f n) ∧
    loop_schedule f n < loop_schedule f (n + 1) ∧
    (f n = true → loop_schedule f (n + 1) = loop_schedule f n + 10) ∧
    (f n = false → loop_schedule f (n + 1) = loop_schedule f n + 5) ∧
    (f n = true → f (n + 1) = false →
      loop_schedule f (n + 2) = loop_schedule f n + 10 + 5) := by
  have hstep : ∀ m, loop_schedule f (m + 1) = loop_schedule f m + cycle_delay (f m) :=
    fun m => rfl
  have hpos : ∀ b, 0 < cycle_delay b := by
    intro b; cases b <;> simp [cycle_delay]
  refine ⟨hstep n, ?_, ?_, ?_, ?_⟩
  · rw [hstep n]
    exact Nat.lt_add_of_pos_right (hpos (f n))
  · intro h
    rw [hstep n, h]
    rfl
  · intro h
    rw [hstep n, h]
    rfl
  · intro h1 h2
    rw [hstep (n + 1), hstep n, h1, h2]
    rfl

/-- Failure pattern for the witness: only the first cycle raises. -/
def failFirstCycle (i : ℕ) : Bool := decide (i = 0)

theorem background_loop_backoff_witness :
    loop_schedule failFirstCycle (0 + 1)
        = loop_schedule failFirstCycle 0 + cycle_delay (failFirstCycle 0) ∧
    loop_schedule failFirstCycle 0 < loop_schedule failFirstCycle (0 + 1) ∧
    loop_schedule failFirstCycle (0 + 1) = loop_schedule failFirstCycle 0 + 10 ∧
    loop_schedule failFirstCycle (0 + 2) = loop_schedule failFirstCycle 0 + 10 + 5 :=
  ⟨(background_loop_backoff failFirstCycle 0).1,
   (background_loop_backoff failFirstCycle 0).2.1,
   (background_loop_backoff failFirstCycle 0).2.2.1 rfl,
   (background_loop_backoff failFirstCycle 0).2.2.2.2 rfl rfl⟩

end AdvancedManager
